import Mathlib

/-!
Verification of the query-intent-resolution and tool-dispatch engine of the
`z2-agents-simple` repository, as a shallow embedding in Lean.

Embedded source files:
* `backend/mcp_registry.py` — tool catalog (`MCPRegistry._initialize_tools`),
  tool scoring (`MCPRegistry._score_tool`) and query analysis
  (`MCPRegistry.analyze_query`).
* `backend/agents_simple.py` — the Tier-1 dispatch gate and Tier-2 decision
  list (`DataAgent.process`), the MCP tool executor
  (`DataAgent._execute_mcp_tool`), the part-detail fallback retry
  (`DataAgent._get_part_details`) and the litigation formatter
  (`DataAgent._format_litigation_response`).
* `backend/z2data_client.py` — the two-phase client
  (`Z2DataClient.get_company_litigations` and the class's method inventory).

Modelling conventions:
* Python strings are Lean `String`; the substring operator `kw in q` is
  `occursIn kw q` (substring containment on the character lists).
* Optional / possibly-missing dict values become `Option String`; Python
  truthiness of such a value (`None` and `""` are falsy) is `truthy`.
* All scores produced by `_score_tool` are sums of the integer constants
  2, 15, 10, 8, 3, 2; IEEE double arithmetic is exact on these sums and
  comparisons against `2.0` coincide with integer comparisons, so scores are
  embedded as `Nat`.
* Network endpoints and the LLM extractor are external collaborators: they
  enter the embedding as explicitly quantified oracles (plain functions),
  and every agent-level function also returns the trace of
  `Z2DataClient`-method invocations it performs, so "no API call is made"
  is a statement about that trace.
-/

/-- Does the pattern (first argument) start the given character list?
Mirrors the head comparison of Python substring search. -/
def leadsWith : List Char → List Char → Bool
  | [], _ => true
  | _ :: _, [] => false
  | p :: ps, c :: cs => p == c && leadsWith ps cs

/-- Substring containment on character lists: some suffix starts with `p`.
The empty pattern occurs everywhere, matching Python `"" in s`. -/
def occursInL (p : List Char) : List Char → Bool
  | [] => leadsWith p []
  | c :: rest => leadsWith p (c :: rest) || occursInL p rest

/-- Python `pat in s` for strings. -/
def occursIn (pat s : String) : Bool := occursInL pat.data s.data

/-- Python `str.lower()` restricted to the ASCII alphabet actually used by
the routing code. -/
def lowerStr (s : String) : String := String.mk (s.data.map Char.toLower)

/-- Python truthiness of an optional string: `None` and `""` are falsy. -/
def truthy : Option String → Bool
  | none => false
  | some s => s != ""

/-- Python `x or y` on two optional strings (used for
`analysis.get("company_name") or analysis.get("manufacturer")`). -/
def pyOr (x y : Option String) : Option String := if truthy x then x else y

/-- The parameter dict produced by `MCPRegistry._extract_parameters`:
`{'part_number': …, 'manufacturer': …, 'company': …}`. -/
structure Params where
  part_number : Option String
  manufacturer : Option String
  company : Option String
deriving DecidableEq, Repr

/-- One tool definition from `MCPRegistry._initialize_tools`. -/
structure Tool where
  name : String
  keywords : List String
  requires : List String
  optional : List String
  api_method : String
deriving DecidableEq, Repr

/-- Catalog entry 1 of `MCPRegistry._initialize_tools`. -/
def partDetailsTool : Tool :=
  { name := "Part_Details",
    keywords := ["part details", "specifications", "datasheet", "parameters", "features"],
    requires := ["part_number", "manufacturer"], optional := [],
    api_method := "get_part_details" }

/-- Catalog entry 2. -/
def partSearchTool : Tool :=
  { name := "Part_Search",
    keywords := ["search", "find", "lookup", "part number"],
    requires := ["part_number"], optional := [],
    api_method := "search_parts" }

/-- Catalog entry 3. -/
def marketTool : Tool :=
  { name := "Market_Availability",
    keywords := ["market", "availability", "price", "pricing", "stock", "inventory", "distributor", "lead time"],
    requires := ["part_number"], optional := ["manufacturer"],
    api_method := "get_market_availability" }

/-- Catalog entry 4. -/
def crossRefTool : Tool :=
  { name := "Cross_References",
    keywords := ["cross reference", "alternative", "replacement", "substitute", "equivalent", "crosses"],
    requires := ["part_number", "manufacturer"], optional := [],
    api_method := "get_cross_references" }

/-- Catalog entry 5. -/
def litigationTool : Tool :=
  { name := "Company_Litigations",
    keywords := ["litigation", "lawsuit", "legal", "court", "case", "litigations"],
    requires := ["company"], optional := [],
    api_method := "get_company_litigations" }

/-- Catalog entry 6. -/
def companyDetailsTool : Tool :=
  { name := "Company_Details",
    keywords := ["company details", "company info", "business", "revenue", "employees"],
    requires := ["company"], optional := [],
    api_method := "get_company_details" }

/-- Catalog entry 7. -/
def locationsTool : Tool :=
  { name := "Supply_Chain_Locations",
    keywords := ["supply chain", "factory", "location", "manufacturing", "facility"],
    requires := ["company"], optional := [],
    api_method := "get_supply_chain_locations" }

/-- Catalog entry 8. -/
def eventsTool : Tool :=
  { name := "Supply_Chain_Events",
    keywords := ["supply chain event", "disruption", "shortage", "supply news"],
    requires := [], optional := ["date_from", "date_to"],
    api_method := "get_supply_chain_events" }

/-- Catalog entry 9. -/
def digikeyTool : Tool :=
  { name := "Digikey_Stock",
    keywords := ["digikey", "digi-key", "digikey stock", "digikey price"],
    requires := ["part_number"], optional := ["manufacturer"],
    api_method := "get_digikey_stock" }

/-- Catalog entry 10. -/
def complianceTool : Tool :=
  { name := "Compliance_Data",
    keywords := ["rohs", "reach", "compliance", "environmental", "restriction", "hazardous"],
    requires := ["part_number"], optional := ["manufacturer"],
    api_method := "get_compliance_data" }

/-- The static tool catalog of `MCPRegistry._initialize_tools`
(source order preserved). -/
def tools : List Tool :=
  [partDetailsTool, partSearchTool, marketTool, crossRefTool, litigationTool,
   companyDetailsTool, locationsTool, eventsTool, digikeyTool, complianceTool]

/-- The required-slot gate of `MCPRegistry._score_tool` (the `has_required`
loop): a `company` requirement is met by a company or a manufacturer value;
a `part_number` requirement by a part number; a `manufacturer` requirement
is only enforced for the two tools named in the source. -/
def requiredOk (tool : Tool) (p : Params) : Bool :=
  tool.requires.all fun req =>
    if req == "company" then truthy p.company || truthy p.manufacturer
    else if req == "part_number" then truthy p.part_number
    else if req == "manufacturer" then
      truthy p.manufacturer ||
        !(tool.name == "Part_Details" || tool.name == "Cross_References")
    else true

/-- Keyword hits of `_score_tool`: number of trigger keywords occurring as
substrings of the lowercased query. -/
def keywordHits (tool : Tool) (q : String) : Nat :=
  (tool.keywords.filter fun kw => occursIn kw q).length

/-- `MCPRegistry._score_tool`, embedded line by line: 2 points per keyword
hit, the hard required-slot gate, then the fixed special-pattern bonuses in
source order (note the supply-chain `if`/`elif`, whose first branch also
tests the tool name). -/
def score_tool (tool : Tool) (q : String) (p : Params) : Nat :=
  let base := 2 * keywordHits tool q
  if !requiredOk tool p then 0 else
  base
    + (if occursIn "cross reference" q && tool.name == "Cross_References" then 15 else 0)
    + (if occursIn "alternative" q && tool.name == "Cross_References" then 10 else 0)
    + (if occursIn "replacement" q && tool.name == "Cross_References" then 10 else 0)
    + (if occursIn "litigation" q && tool.name == "Company_Litigations" then 10 else 0)
    + (if occursIn "company" q && occursIn "details" q && tool.name == "Company_Details" then 8 else 0)
    + (if occursIn "supply chain" q then
        (if occursIn "location" q && tool.name == "Supply_Chain_Locations" then 8
         else if occursIn "event" q && tool.name == "Supply_Chain_Events" then 8 else 0)
       else 0)
    + (if occursIn "digikey" q && tool.name == "Digikey_Stock" then 10 else 0)
    + (if (occursIn "rohs" q || occursIn "reach" q || occursIn "compliance" q)
          && tool.name == "Compliance_Data" then 8 else 0)
    + (if truthy p.part_number && truthy p.manufacturer && tool.name == "Part_Details" then 3 else 0)
    + (if truthy p.part_number && !truthy p.manufacturer && tool.name == "Part_Search" then 2 else 0)

/-- The result dict of `MCPRegistry.analyze_query`. -/
structure AnalyzeResult where
  tool : Option Tool
  parameters : Params
  confidence : Nat
deriving DecidableEq, Repr

/-- The best-tool selection loop of `analyze_query`
(`if score > best_score: best_score, best_tool := score, tool`). -/
def pickBest (q : String) (p : Params) : List Tool → Option Tool × Nat → Option Tool × Nat
  | [], acc => acc
  | t :: ts, acc =>
      pickBest q p ts (if acc.2 < score_tool t q p then (some t, score_tool t q p) else acc)

/-- `MCPRegistry.analyze_query`, with the extracted parameters supplied as
input (parameter extraction is an LLM call, an external collaborator). -/
def analyze_query (query : String) (p : Params) : AnalyzeResult :=
  let ql := lowerStr query
  let best := pickBest ql p tools (none, 0)
  { tool := best.1, parameters := p, confidence := best.2 }

/-- One row of the spec's bonus precedence table (§4.3 step 3 asks for "an
explicit, unit-testable ordered table of (predicate, bonus, target tool)"). -/
structure BonusRule where
  cond : String → Bool
  target : String
  amount : Nat

/-- The bonus table exactly as the spec claims it (§4.3 step 3): note the
litigation row fires on "litigation" OR "lawsuit". -/
def specBonusTableClaimed : List BonusRule :=
  [ ⟨fun q => occursIn "cross reference" q, "Cross_References", 15⟩,
    ⟨fun q => occursIn "alternative" q, "Cross_References", 10⟩,
    ⟨fun q => occursIn "replacement" q, "Cross_References", 10⟩,
    ⟨fun q => occursIn "litigation" q || occursIn "lawsuit" q, "Company_Litigations", 10⟩,
    ⟨fun q => occursIn "company" q && occursIn "details" q, "Company_Details", 8⟩,
    ⟨fun q => occursIn "supply chain" q && occursIn "location" q, "Supply_Chain_Locations", 8⟩,
    ⟨fun q => occursIn "supply chain" q && occursIn "event" q, "Supply_Chain_Events", 8⟩,
    ⟨fun q => occursIn "digikey" q, "Digikey_Stock", 10⟩,
    ⟨fun q => occursIn "rohs" q || occursIn "reach" q || occursIn "compliance" q, "Compliance_Data", 8⟩ ]

/-- The bonus table as the code actually behaves: identical to
`specBonusTableClaimed` except that the litigation bonus fires on
"litigation" only ("lawsuit" earns no bonus in `_score_tool`). -/
def specBonusTableAmended : List BonusRule :=
  [ ⟨fun q => occursIn "cross reference" q, "Cross_References", 15⟩,
    ⟨fun q => occursIn "alternative" q, "Cross_References", 10⟩,
    ⟨fun q => occursIn "replacement" q, "Cross_References", 10⟩,
    ⟨fun q => occursIn "litigation" q, "Company_Litigations", 10⟩,
    ⟨fun q => occursIn "company" q && occursIn "details" q, "Company_Details", 8⟩,
    ⟨fun q => occursIn "supply chain" q && occursIn "location" q, "Supply_Chain_Locations", 8⟩,
    ⟨fun q => occursIn "supply chain" q && occursIn "event" q, "Supply_Chain_Events", 8⟩,
    ⟨fun q => occursIn "digikey" q, "Digikey_Stock", 10⟩,
    ⟨fun q => occursIn "rohs" q || occursIn "reach" q || occursIn "compliance" q, "Compliance_Data", 8⟩ ]

/-- Score computed from a bonus table the way the spec words it: base score
2.0 × keyword hits, plus every matching table row whose target is this tool,
plus the two entity disambiguation bonuses of §4.3 step 4. -/
def tableScore (table : List BonusRule) (tool : Tool) (q : String) (p : Params) : Nat :=
  2 * keywordHits tool q
    + (table.map fun r => if r.cond q && tool.name == r.target then r.amount else 0).sum
    + (if truthy p.part_number && truthy p.manufacturer && tool.name == "Part_Details" then 3 else 0)
    + (if truthy p.part_number && !truthy p.manufacturer && tool.name == "Part_Search" then 2 else 0)

/-- The per-tool score formula exactly as claim C3 states it. -/
def specScoreClaimed (tool : Tool) (q : String) (p : Params) : Nat :=
  tableScore specBonusTableClaimed tool q p

/-- The per-tool score formula after the minimal amendment (litigation bonus
on "litigation" only). -/
def specScoreAmended (tool : Tool) (q : String) (p : Params) : Nat :=
  tableScore specBonusTableAmended tool q p

/-- Maximum score over a tool list (0 for the empty list); all scores are
naturals, so 0 is also the "no tool scores above 0" marker of the spec. -/
def maxScoreL (q : String) (p : Params) (l : List Tool) : Nat :=
  l.foldr (fun t m => max (score_tool t q p) m) 0

/-- `analyze` as §4.3 step 5 words it: the maximum-scoring tool, ties broken
by catalog order (first listed wins), `none` when no tool scores above 0. -/
def spec_analyze (query : String) (p : Params) : AnalyzeResult :=
  let ql := lowerStr query
  let m := maxScoreL ql p tools
  { tool := if m = 0 then none else tools.find? fun t => score_tool t ql p == m,
    parameters := p,
    confidence := m }

/-- The Tier-1 gate of `DataAgent.process`
(`if mcp_analysis['tool'] and mcp_analysis['confidence'] > 2.0`); a tool
dict is truthy exactly when present. -/
def tier1Fires (r : AnalyzeResult) : Bool :=
  r.tool.isSome && decide (2 < r.confidence)

/-- Characters removed by Python `str.strip()`. -/
def isPySpace (c : Char) : Bool :=
  c == ' ' || c == '\t' || c == '\n' || c == '\r' || c == '\x0B' || c == '\x0C'

/-- Python `str.strip()`. -/
def pyStrip (s : String) : String :=
  String.mk (((s.data.dropWhile isPySpace).reverse.dropWhile isPySpace).reverse)

/-- Rendering of an optional string inside a Python f-string when the dict
key is present: a JSON-null value prints as `None`. -/
def pyRender : Option String → String
  | some s => s
  | none => "None"

/-- The Tier-2 analysis dict produced by `DataAgent._analyze_query` (LLM
output plus `original_manufacturer`); boolean intent flags default to
false when absent, matching Python `.get` truthiness. -/
structure T2Analysis where
  part_number : Option String
  manufacturer : Option String
  original_manufacturer : Option String
  company_name : Option String
  has_manufacturer : Bool
  is_part_search : Bool
  is_market_query : Bool
  is_bom_query : Bool
  is_enrichment_query : Bool
  is_litigation_query : Bool
  is_company_query : Bool
  is_cross_reference_query : Bool
deriving DecidableEq, Repr

/-- Which Tier-2 branch of `DataAgent.process` handles the query. -/
inductive Route where
  | market
  | litigation
  | companyDetails
  | bom
  | crossRef
  | enrichment
  | partDetail
  | partSearch
  | shortSearch
  | general
deriving DecidableEq, Repr

/-- The Tier-2 `if`/`elif` chain of `DataAgent.process`
(source lines 219-272), embedded condition by condition. -/
def tier2Route (a : T2Analysis) (message : String) : Route :=
  if a.is_market_query then .market
  else if a.is_litigation_query then .litigation
  else if a.is_company_query then .companyDetails
  else if a.is_bom_query then .bom
  else if a.is_cross_reference_query then .crossRef
  else if a.is_enrichment_query then .enrichment
  else if a.has_manufacturer && truthy a.part_number then .partDetail
  else if truthy a.part_number || a.is_part_search then .partSearch
  else if (pyStrip message).length ≤ 20 then .shortSearch
  else .general

/-- The spec's ordered decision list (§4.4 Tier-2, rules 1-8), written as an
explicit rule table: each entry is (predicate, routed operation). -/
def specRules : List ((T2Analysis → Bool) × Route) :=
  [ (fun a => a.is_market_query, .market),
    (fun a => a.is_litigation_query, .litigation),
    (fun a => a.is_company_query, .companyDetails),
    (fun a => a.is_bom_query, .bom),
    (fun a => a.is_cross_reference_query, .crossRef),
    (fun a => a.is_enrichment_query, .enrichment),
    (fun a => a.has_manufacturer && truthy a.part_number, .partDetail),
    (fun a => truthy a.part_number || a.is_part_search, .partSearch) ]

/-- First-match-wins evaluation of a rule table. -/
def firstMatch (a : T2Analysis) : List ((T2Analysis → Bool) × Route) → Option Route
  | [] => none
  | r :: rest => if r.1 a then some r.2 else firstMatch a rest

/-- The Tier-2 routing as the spec words it: the ordered decision list,
first match wins, then the default rule 9 (stripped length ≤ 20 means bare
part search, otherwise the general conversational fallback). -/
def specTier2Route (a : T2Analysis) (message : String) : Route :=
  (firstMatch a specRules).getD
    (if (pyStrip message).length ≤ 20 then .shortSearch else .general)

/-- The slice of a `Z2DataClient.get_part_details` result dict that
`DataAgent._get_part_details` inspects: the `error`, `type` and `content`
keys (each possibly absent). -/
structure PDResult where
  error : Option String := none
  rtype : Option String := none
  content : Option String := none
deriving DecidableEq, Repr

/-- The not-found test of `DataAgent._get_part_details`:
`result.get("error") or (result.get("type") == "text" and "not found" in
result.get("content", "").lower())`. -/
def pdFailed (r : PDResult) : Bool :=
  truthy r.error ||
    (r.rtype == some "text" && occursIn "not found" (lowerStr (r.content.getD "")))

/-- `DataAgent._get_part_details`: one lookup through the client, plus at
most one retry with the verbatim `original_manufacturer` when the first
attempt failed and the original name is present and differs
case-insensitively. The second component is the trace of
`(part_number, manufacturer)` argument pairs passed to
`Z2DataClient.get_part_details`. -/
def dataAgent_get_part_details (client : String → String → PDResult)
    (part_number manufacturer : String) (original_manufacturer : Option String) :
    PDResult × List (String × String) :=
  let r1 := client part_number manufacturer
  if pdFailed r1 then
    match original_manufacturer with
    | some om =>
        if om != "" && lowerStr om != lowerStr manufacturer then
          (client part_number om, [(part_number, manufacturer), (part_number, om)])
        else (r1, [(part_number, manufacturer)])
    | none => (r1, [(part_number, manufacturer)])
  else (r1, [(part_number, manufacturer)])

/-- One litigation record (an opaque JSON object row). -/
abbrev LitRow := List (String × String)

/-- The JSON shape of the `results` field of the litigation endpoint, as far
as `_format_litigation_response` discriminates it. -/
inductive LitData where
  | absent
  | list (rows : List LitRow)
  | dict (lawsuits : Option (List LitRow)) (hasOtherKeys : Bool)
deriving DecidableEq, Repr

/-- Python truthiness of the `data` value: a missing key or `None` is falsy,
a list is truthy iff nonempty, a dict is truthy iff nonempty (a `Lawsuits`
key or any other key makes it nonempty). -/
def litTruthy : LitData → Bool
  | .absent => false
  | .list rows => !rows.isEmpty
  | .dict lawsuits hasOtherKeys => lawsuits.isSome || hasOtherKeys

/-- The result dict of `Z2DataClient.get_company_litigations`, restricted to
the keys its callers read (`success`, `error`, `data`, `company_name`). -/
structure LitFetchOut where
  success : Bool
  error : Option String
  data : LitData
  company_name : Option String
deriving DecidableEq, Repr

/-- The slice of a `Z2DataClient.validate_company` result its callers read. -/
structure CompanyValidation where
  success : Bool
  company_id : Option Int
  error : Option String
deriving DecidableEq, Repr

/-- `Z2DataClient.get_company_litigations`: validate the company, bail out
on validation failure or a falsy company id, then fetch the litigation
records by id. `vc` is the company-validation endpoint and `api` the
litigation endpoint (`.error` models a non-2xx/transport failure caught by
the `except` blocks). -/
def get_company_litigations (vc : String → CompanyValidation)
    (api : Int → Except String LitData) (company : String) : LitFetchOut :=
  let v := vc company
  if !v.success then
    { success := false, error := v.error, data := .absent, company_name := none }
  else
    match v.company_id with
    | none =>
        { success := false, error := some "Could not obtain company ID",
          data := .absent, company_name := none }
    | some cid =>
        if cid == 0 then
          { success := false, error := some "Could not obtain company ID",
            data := .absent, company_name := none }
        else
          match api cid with
          | .error e =>
              { success := false, error := some e, data := .absent, company_name := none }
          | .ok d =>
              { success := true, error := none, data := d, company_name := some company }

/-- The generic slice of the other client results the executor reads
(`success`, `error`, and the `summary` key used by
`_format_market_response`). -/
structure CallResult where
  success : Bool := false
  error : Option String := none
  summary : Option String := none
deriving DecidableEq, Repr

/-- A response value flowing out of the data agent. Branches whose payload
no claim inspects are kept symbolic: `other` tags the formatter that
produced the value, `callResult`/`litResult`/`pd` carry a raw client result
dict returned unformatted. -/
inductive Resp where
  | str (s : String)
  | err (content : String)
  | text (content : String)
  | litTable (title : String) (rows : List LitRow) (toolName : String)
  | pd (r : PDResult)
  | callResult (tag : String) (r : CallResult)
  | litResult (r : LitFetchOut)
  | other (tag : String)
deriving DecidableEq, Repr

/-- `DataAgent._format_litigation_response`: the client result carries no
`litigations` or `company` keys, so the `or`-fallbacks reduce to the `data`
and `company_name` keys and the `Unknown` default. -/
def format_litigation_response (r : LitFetchOut) : Resp :=
  let companyName :=
    match r.company_name with
    | some c => if c == "" then "Unknown" else c
    | none => "Unknown"
  if !litTruthy r.data then
    .litTable ("No litigation records found for " ++ companyName) [] "company_litigations"
  else
    let lawsuits :=
      match r.data with
      | .dict (some l) _ => l
      | .dict none _ => []
      | .list l => l
      | .absent => []
    .litTable ("Litigation History for " ++ companyName) lawsuits "company_litigations"

/-- The oracle record for the methods `Z2DataClient` actually defines and
the data agent invokes. Each field abstracts one network-backed method. -/
structure Z2Client where
  get_part_details : String → String → PDResult
  search_parts : String → Option String → CallResult
  get_market_availability : String → String → CallResult
  get_cross_references : String → String → CallResult
  get_company_details : String → CallResult
  get_company_litigations : String → LitFetchOut
  get_supply_chain_events : Unit → CallResult
  get_compliance_data : String → CallResult

/-- The complete method inventory of the `Z2DataClient` class in
`backend/z2data_client.py`. Neither `get_supply_chain_locations` nor
`get_digikey_stock` is among them (the company supply-chain method is named
`get_company_supply_chain`). -/
def z2ClientMethods : List String :=
  ["validate_part", "get_part_details", "search_parts", "get_market_availability",
   "get_cross_references", "validate_company", "get_company_details",
   "get_company_litigations", "get_company_supply_chain", "get_supply_chain_events",
   "get_compliance_data", "check_rohs_compliance", "format_results",
   "_format_part_details", "_format_market_availability", "_format_cross_references",
   "_format_company_details", "_format_supply_chain_events"]

/-- `str(AttributeError)` for a missing `Z2DataClient` attribute. -/
def attrErrMsg (method : String) : String :=
  "\x27Z2DataClient\x27 object has no attribute \x27" ++ method ++ "\x27"

/-- The string built by the `except` handler of `_execute_mcp_tool`:
`f"Error executing {tool['name']}: {str(e)}"`. -/
def execErrorMsg (toolName msg : String) : String :=
  "Error executing " ++ toolName ++ ": " ++ msg

/-- `DataAgent._execute_mcp_tool`, dispatching on the tool's `api_method`
exactly as the source `if`/`elif` chain does. The second component is the
trace of `Z2DataClient` method invocations. The two branches whose
`api_method` names a method the `Z2DataClient` class does not define
(`get_supply_chain_locations`, `get_digikey_stock`) raise `AttributeError`
at the call site, which the surrounding `except` turns into the
`execErrorMsg` string — so those branches perform no client call. -/
def execute_mcp_tool (c : Z2Client) (tool : Tool) (p : Params) : Resp × List String :=
  if tool.api_method == "" then
    (.str ("Tool " ++ tool.name ++ " does not have an API method configured"), [])
  else if tool.api_method == "get_company_litigations" then
    if truthy p.company then
      let r := c.get_company_litigations (p.company.getD "")
      if r.success then (format_litigation_response r, ["get_company_litigations"])
      else (.str ("Failed to get litigation data: " ++ r.error.getD "Unknown error"),
            ["get_company_litigations"])
    else (.str "Company name is required for litigation search", [])
  else if tool.api_method == "get_company_details" then
    if truthy p.company then
      let r := c.get_company_details (p.company.getD "")
      if r.success then (.other "company_details_formatted", ["get_company_details"])
      else (.str ("Failed to get company details: " ++ r.error.getD "Unknown error"),
            ["get_company_details"])
    else (.str "Company name is required for company details", [])
  else if tool.api_method == "get_supply_chain_locations" then
    if truthy p.company then
      (.str (execErrorMsg tool.name (attrErrMsg "get_supply_chain_locations")), [])
    else (.str "Company name is required for supply chain locations", [])
  else if tool.api_method == "get_digikey_stock" then
    if truthy p.part_number then
      (.str (execErrorMsg tool.name (attrErrMsg "get_digikey_stock")), [])
    else (.str "Part number is required for DigiKey stock check", [])
  else if tool.api_method == "get_supply_chain_events" then
    let r := c.get_supply_chain_events ()
    if r.success then (.other "events_formatted", ["get_supply_chain_events"])
    else (.str ("Failed to get supply chain events: " ++ r.error.getD "Unknown error"),
          ["get_supply_chain_events"])
  else if tool.api_method == "get_part_details" then
    if truthy p.part_number && truthy p.manufacturer then
      let pr := dataAgent_get_part_details c.get_part_details
        (p.part_number.getD "") (p.manufacturer.getD "") none
      (.pd pr.1, pr.2.map fun _ => "get_part_details")
    else (.str "Both part number and manufacturer are required for part details", [])
  else if tool.api_method == "search_parts" then
    if truthy p.part_number then
      (.callResult "search_results" (c.search_parts (p.part_number.getD "") none),
       ["search_parts"])
    else (.str "Part number is required for part search", [])
  else if tool.api_method == "get_market_availability" then
    if truthy p.part_number then
      let r := c.get_market_availability (p.part_number.getD "") ""
      if r.success then
        (.str ("Market availability data retrieved: " ++ r.summary.getD "No summary available"),
         ["get_market_availability"])
      else
        (.callResult "market_availability" (c.get_market_availability (p.part_number.getD "") ""),
         ["get_market_availability", "get_market_availability"])
    else (.str "Part number is required for market availability", [])
  else if tool.api_method == "get_cross_references" then
    if truthy p.part_number && truthy p.manufacturer then
      let r := c.get_cross_references (p.part_number.getD "") (p.manufacturer.getD "")
      if r.success then (.other "cross_references_table", ["get_cross_references"])
      else (.str ("Failed to get cross references: " ++ r.error.getD "Unknown error"),
            ["get_cross_references"])
    else (.str "Both part number and manufacturer are required for cross references", [])
  else if tool.api_method == "get_compliance_data" then
    if truthy p.part_number then (.other "compliance_formatted", ["get_compliance_data"])
    else (.str "Part number is required for compliance data", [])
  else (.str ("Unknown API method: " ++ tool.api_method), [])

/-- The guidance string of the Tier-2 cross-reference rule (source line 246). -/
def crossRefGuidance (part : String) : String :=
  "To get cross references for " ++ part ++
    ", please specify the manufacturer. For example: \x27cross references for LM317 TI\x27 or \x27cross references for LM317 Texas Instruments\x27"

/-- The Tier-2 bodies of `DataAgent.process` (the `else` side of the Tier-1
gate), per routed branch. `reParams` is the extraction result of the fresh
`analyze_query` call made inside the cross-reference branch (an LLM
output). The second component is the trace of `Z2DataClient` method
invocations. -/
def tier2Respond (c : Z2Client) (a : T2Analysis) (message : String) (reParams : Params) :
    Resp × List String :=
  match tier2Route a message with
  | .market =>
      if truthy a.part_number then
        (.callResult "market_availability"
          (c.get_market_availability (a.part_number.getD "") (a.manufacturer.getD "")),
         ["get_market_availability"])
      else
        (.callResult "market_availability" (c.get_market_availability message ""),
         ["get_market_availability"])
  | .litigation =>
      let cn := pyOr a.company_name a.manufacturer
      if truthy cn then
        (.litResult (c.get_company_litigations (cn.getD "")), ["get_company_litigations"])
      else (.err "Please specify a company name for litigation search", [])
  | .companyDetails =>
      let cn := pyOr a.company_name a.manufacturer
      if truthy cn then
        (.callResult "company_details" (c.get_company_details (cn.getD "")),
         ["get_company_details"])
      else (.err "Please specify a company name", [])
  | .bom =>
      (.str "BOM analysis functionality is available through file upload. Please upload a CSV or Excel file with your BOM data.", [])
  | .crossRef =>
      if !a.has_manufacturer then
        (.str (crossRefGuidance (pyRender a.part_number)), [])
      else
        let mcp := analyze_query message reParams
        match mcp.tool with
        | some t => execute_mcp_tool c t mcp.parameters
        | none => (.str "Could not find appropriate tool for cross references", [])
  | .enrichment => (.str "Please upload a file to enrich the data.", [])
  | .partDetail =>
      let pr := dataAgent_get_part_details c.get_part_details
        (a.part_number.getD "") (a.manufacturer.getD "") a.original_manufacturer
      (.pd pr.1, pr.2.map fun _ => "get_part_details")
  | .partSearch =>
      let mfr := pyOr a.manufacturer a.original_manufacturer
      (.callResult "search_results" (c.search_parts message mfr), ["search_parts"])
  | .shortSearch =>
      (.callResult "search_results" (c.search_parts message none), ["search_parts"])
  | .general => (.text ("Processing data query: " ++ message), [])

example : occursIn "lit" "toshiba litigations" = true := by decide
example : occursIn "xyz" "toshiba" = false := by decide
example : score_tool litigationTool (lowerStr "toshiba litigations")
    ⟨none, none, some "Toshiba"⟩ = 14 := by decide
example : score_tool digikeyTool (lowerStr "DigiKey stock for LM317")
    ⟨some "LM317", none, none⟩ = 14 := by decide
example : (analyze_query "DigiKey stock for LM317" ⟨some "LM317", none, none⟩).confidence = 14 := by
  decide

/-- Claim C2's hypothesis, as a decidable predicate: some required slot of
the tool is unfilled in the extracted entities, and it is not the excepted
case of a `company` requirement covered by a present `manufacturer`. An
entity assignment has exactly the three slots of `Params`; any other
required slot name is never filled. -/
def missingRequiredSlot (tool : Tool) (p : Params) : Bool :=
  tool.requires.any fun req =>
    !( if req == "company" then truthy p.company
       else if req == "part_number" then truthy p.part_number
       else if req == "manufacturer" then truthy p.manufacturer
       else false)
    && !(req == "company" && truthy p.manufacturer)

/-- A client oracle whose calls all return inert defaults (used to
instantiate theorems quantified over the client). -/
def trivialClient : Z2Client :=
  { get_part_details := fun _ _ => {},
    search_parts := fun _ _ => {},
    get_market_availability := fun _ _ => {},
    get_cross_references := fun _ _ => {},
    get_company_details := fun _ => {},
    get_company_litigations := fun _ =>
      { success := false, error := none, data := .absent, company_name := none },
    get_supply_chain_events := fun _ => {},
    get_compliance_data := fun _ => {} }

/-- Company-validation oracle that validates every name to company id 1. -/
def vcAlwaysOne : String → CompanyValidation := fun _ => ⟨true, some 1, none⟩

/-- Litigation endpoint oracle that returns an empty record list. -/
def apiNoLitigations : Int → Except String LitData := fun _ => .ok (.list [])

/-- A client whose litigation method is the embedded two-phase
`get_company_litigations` over the two oracles above. -/
def clientNoLitigations : Z2Client :=
  { trivialClient with
    get_company_litigations := get_company_litigations vcAlwaysOne apiNoLitigations }

/-- Part-details oracle that fails (part not found) exactly for the
manufacturer string "Texas Instruments". -/
def clientFailsForTI : String → String → PDResult := fun _ m =>
  if m == "Texas Instruments" then { error := some "Part not found" } else {}

/-- A Tier-2 analysis with cross-reference intent, a part number and no
manufacturer (the classifier output for "cross references for LM317"). -/
def aCrossRefNoMfr : T2Analysis :=
  { part_number := some "LM317", manufacturer := none, original_manufacturer := none,
    company_name := none, has_manufacturer := false, is_part_search := false,
    is_market_query := false, is_bom_query := false, is_enrichment_query := false,
    is_litigation_query := false, is_company_query := false,
    is_cross_reference_query := true }

/-! ## Helper lemmas -/

theorem maxScoreL_cons (q : String) (p : Params) (t : Tool) (ts : List Tool) :
    maxScoreL q p (t :: ts) = max (score_tool t q p) (maxScoreL q p ts) := rfl

theorem pickBest_eq (q : String) (p : Params) :
    ∀ (l : List Tool) (o : Option Tool) (b : Nat),
      pickBest q p l (o, b) =
        if maxScoreL q p l ≤ b then (o, b)
        else (l.find? (fun t => score_tool t q p == maxScoreL q p l),
              maxScoreL q p l) := by
  intro l
  induction l with
  | nil => intro o b; simp [pickBest, maxScoreL]
  | cons t ts ih =>
      intro o b
      rw [maxScoreL_cons]
      simp only [pickBest, List.find?]
      by_cases hbs : b < score_tool t q p
      · rw [if_pos hbs, ih]
        by_cases hM : maxScoreL q p ts ≤ score_tool t q p
        · rw [if_pos hM]
          have hmax : max (score_tool t q p) (maxScoreL q p ts) = score_tool t q p :=
            Nat.max_eq_left hM
          rw [hmax]
          have : ¬ (score_tool t q p ≤ b) := by omega
          rw [if_neg this]
          simp
        · rw [if_neg hM]
          have hmax : max (score_tool t q p) (maxScoreL q p ts) = maxScoreL q p ts :=
            Nat.max_eq_right (by omega)
          rw [hmax]
          have hlt : ¬ (maxScoreL q p ts ≤ b) := by omega
          rw [if_neg hlt]
          have hne : (score_tool t q p == maxScoreL q p ts) = false := by
            simp only [beq_eq_false_iff_ne, ne_eq]
            omega
          rw [hne]
      · rw [if_neg hbs, ih]
        by_cases hM : maxScoreL q p ts ≤ b
        · rw [if_pos hM]
          have : max (score_tool t q p) (maxScoreL q p ts) ≤ b := by omega
          rw [if_pos this]
        · rw [if_neg hM]
          have hmax : max (score_tool t q p) (maxScoreL q p ts) = maxScoreL q p ts :=
            Nat.max_eq_right (by omega)
          rw [hmax]
          have hgt : ¬ (maxScoreL q p ts ≤ b) := hM
          rw [if_neg hgt]
          have hne : (score_tool t q p == maxScoreL q p ts) = false := by
            simp only [beq_eq_false_iff_ne, ne_eq]
            omega
          rw [hne]

theorem analyze_eq_spec (q : String) (p : Params) :
    analyze_query q p = spec_analyze q p := by
  unfold analyze_query spec_analyze
  simp only [pickBest_eq]
  by_cases h : maxScoreL (lowerStr q) p tools = 0
  · simp [h]
  · have h0 : ¬ (maxScoreL (lowerStr q) p tools ≤ 0) := by omega
    simp [h, h0]

theorem find?_maxScore_isSome (q : String) (p : Params) :
    ∀ l : List Tool, maxScoreL q p l ≠ 0 →
      (l.find? fun t => score_tool t q p == maxScoreL q p l).isSome := by
  intro l
  induction l with
  | nil => intro h; exact absurd rfl h
  | cons t ts ih =>
      intro h
      rw [maxScoreL_cons] at *
      simp only [List.find?]
      by_cases hst : score_tool t q p = max (score_tool t q p) (maxScoreL q p ts)
      · rw [← hst]
        simp
      · have hmax : max (score_tool t q p) (maxScoreL q p ts) = maxScoreL q p ts := by
          rcases Nat.le_total (score_tool t q p) (maxScoreL q p ts) with hle | hle
          · exact Nat.max_eq_right hle
          · exact absurd (Nat.max_eq_left hle).symm hst
        have hne : (score_tool t q p == max (score_tool t q p) (maxScoreL q p ts)) = false := by
          simp only [beq_eq_false_iff_ne, ne_eq]
          exact hst
        rw [hne, hmax]
        exact ih (by omega)

/-! ## Claim theorems -/

/-- C4: `analyze_query` is deterministic (it is a pure function of the query
and the extracted parameters) and coincides with the spec's description: it
returns the maximum-scoring catalog tool, ties broken by catalog order with
the first-listed tool winning (`List.find?` on the first tool attaining the
maximum), and a null tool when no tool scores strictly above 0. -/
theorem c4_analyze_returns_first_maximum (query : String) (p : Params) :
    analyze_query query p = spec_analyze query p :=
  analyze_eq_spec query p

/-- C1: the Tier-1 fast path of `DataAgent.process` fires exactly when the
confidence returned by `analyze_query` is strictly greater than 2; in
particular a top score of exactly 2 falls through to Tier-2. (All scores
are integer-valued, so the Python comparison against the float `2.0`
coincides with this integer comparison.) -/
theorem c1_tier1_iff_confidence_gt_2 (query : String) (p : Params) :
    tier1Fires (analyze_query query p) = true ↔ 2 < (analyze_query query p).confidence := by
  rw [analyze_eq_spec]
  unfold tier1Fires spec_analyze
  simp only [Bool.and_eq_true, decide_eq_true_eq]
  constructor
  · intro h
    exact h.2
  · intro h
    refine ⟨?_, h⟩
    have hm : maxScoreL (lowerStr query) p tools ≠ 0 := by
      simp only at h
      omega
    simp only [if_neg hm]
    exact find?_maxScore_isSome (lowerStr query) p tools hm

theorem missing_eq_not_requiredOk :
    ∀ t ∈ tools, ∀ p : Params, missingRequiredSlot t p = !requiredOk t p := by
  intro t ht p
  fin_cases ht <;>
    simp only [missingRequiredSlot, requiredOk, partDetailsTool, partSearchTool, marketTool,
      crossRefTool, litigationTool, companyDetailsTool, locationsTool, eventsTool,
      digikeyTool, complianceTool, List.any_cons, List.any_nil, List.all_cons, List.all_nil] <;>
    cases hc : truthy p.company <;> cases hm : truthy p.manufacturer <;>
      cases hpn : truthy p.part_number <;> simp_all

/-- C2: over the catalog, a tool with an unfilled required slot (excepting a
`company` requirement covered by a present `manufacturer`) scores exactly 0,
and `analyze_query` never selects a zero-scoring tool. -/
theorem c2_required_slot_gate (t : Tool) (q : String) (p : Params) :
    (t ∈ tools → missingRequiredSlot t p = true → score_tool t q p = 0)
    ∧ ((analyze_query q p).tool = some t → 0 < score_tool t (lowerStr q) p) := by
  constructor
  · intro ht hmiss
    have hok : requiredOk t p = false := by
      have := missing_eq_not_requiredOk t ht p
      rw [hmiss] at this
      exact (Bool.not_eq_true' _).mp this.symm
    unfold score_tool
    rw [hok]
    simp
  · intro hsel
    rw [analyze_eq_spec] at hsel
    unfold spec_analyze at hsel
    simp only at hsel
    by_cases hm : maxScoreL (lowerStr q) p tools = 0
    · rw [if_pos hm] at hsel
      exact absurd hsel (by simp)
    · rw [if_neg hm] at hsel
      have := List.find?_some hsel
      have heq : score_tool t (lowerStr q) p = maxScoreL (lowerStr q) p tools := by
        simpa using this
      omega

/-- Witness for C2 at a concrete input: the cross-reference tool requires a
manufacturer; with only a part number extracted it scores 0 even though the
query contains its trigger keyword "alternative". -/
theorem c2_required_slot_gate_witness :
    missingRequiredSlot crossRefTool ⟨some "LM317", none, none⟩ = true ∧
    score_tool crossRefTool (lowerStr "alternatives for LM317") ⟨some "LM317", none, none⟩ = 0 :=
  ⟨by decide,
   (c2_required_slot_gate crossRefTool (lowerStr "alternatives for LM317")
      ⟨some "LM317", none, none⟩).1 (by decide) (by decide)⟩

/-- C3 counterexample: for the query "toshiba lawsuit" (required `company`
slot filled), the catalog's litigation tool scores 2 in the code (one
keyword hit, no bonus), while the claimed formula — whose litigation bonus
fires on "litigation" OR "lawsuit" — yields 12. -/
theorem c3_score_formula_counterexample :
    litigationTool ∈ tools ∧
    requiredOk litigationTool ⟨none, none, some "Toshiba"⟩ = true ∧
    score_tool litigationTool (lowerStr "toshiba lawsuit") ⟨none, none, some "Toshiba"⟩ = 2 ∧
    specScoreClaimed litigationTool (lowerStr "toshiba lawsuit") ⟨none, none, some "Toshiba"⟩ = 12 ∧
    score_tool litigationTool (lowerStr "toshiba lawsuit") ⟨none, none, some "Toshiba"⟩ ≠
      specScoreClaimed litigationTool (lowerStr "toshiba lawsuit") ⟨none, none, some "Toshiba"⟩ := by
  refine ⟨by decide, by decide, by decide, by decide, by decide⟩

/-- C3 (amended): for every catalog tool whose required slots pass the gate,
the code's score equals the spec's table-driven formula once the litigation
bonus is restricted to the word "litigation" ("lawsuit" earns no bonus). -/
theorem c3_amended_score_formula (t : Tool) (q : String) (p : Params)
    (ht : t ∈ tools) (hok : requiredOk t p = true) :
    score_tool t q p = specScoreAmended t q p := by
  fin_cases ht
  all_goals (
    simp only [partDetailsTool, partSearchTool, marketTool, crossRefTool, litigationTool,
      companyDetailsTool, locationsTool, eventsTool, digikeyTool, complianceTool] at hok ⊢
    simp only [score_tool, specScoreAmended, tableScore, specBonusTableAmended,
      List.map_cons, List.map_nil, List.sum_cons, List.sum_nil, hok]
    simp
    try (split <;> simp_all)
    try ring)

/-- Witness for C3 (amended) at a concrete input: "toshiba litigations"
with the company slot filled. -/
theorem c3_amended_score_formula_witness :
    litigationTool ∈ tools ∧
    requiredOk litigationTool ⟨none, none, some "Toshiba"⟩ = true ∧
    score_tool litigationTool (lowerStr "toshiba litigations") ⟨none, none, some "Toshiba"⟩ =
      specScoreAmended litigationTool (lowerStr "toshiba litigations") ⟨none, none, some "Toshiba"⟩ :=
  ⟨by decide, by decide,
   c3_amended_score_formula litigationTool (lowerStr "toshiba litigations")
     ⟨none, none, some "Toshiba"⟩ (by decide) (by decide)⟩

/-- C5: `DataAgent._get_part_details` retries exactly once, with the
verbatim `original_manufacturer`, precisely when the first lookup failed and
a nonempty, case-insensitively distinct original manufacturer was captured;
in every other situation there is a single lookup and no retry. -/
theorem c5_manufacturer_fallback_retry (client : String → String → PDResult)
    (pn mfr om : String) :
    (pdFailed (client pn mfr) = true → om ≠ "" → lowerStr om ≠ lowerStr mfr →
      dataAgent_get_part_details client pn mfr (some om) =
        (client pn om, [(pn, mfr), (pn, om)]))
    ∧ (pdFailed (client pn mfr) = false →
      dataAgent_get_part_details client pn mfr (some om) = (client pn mfr, [(pn, mfr)]))
    ∧ (lowerStr om = lowerStr mfr →
      dataAgent_get_part_details client pn mfr (some om) = (client pn mfr, [(pn, mfr)]))
    ∧ dataAgent_get_part_details client pn mfr none = (client pn mfr, [(pn, mfr)]) := by
  refine ⟨?_, ?_, ?_, ?_⟩ <;> unfold dataAgent_get_part_details
  · intro hf hom hdist
    simp [hf, bne_iff_ne, hom, hdist]
  · intro hf
    simp [hf]
  · intro he
    cases hpf : pdFailed (client pn mfr) <;> simp [hpf, he]
  · cases hpf : pdFailed (client pn mfr) <;> simp [hpf]

/-- Witness for C5: the extractor-normalized "Texas Instruments" fails, the
verbatim surface form "TI" is retried once. -/
theorem c5_manufacturer_fallback_retry_witness :
    pdFailed (clientFailsForTI "BAV99" "Texas Instruments") = true ∧
    dataAgent_get_part_details clientFailsForTI "BAV99" "Texas Instruments" (some "TI") =
      (clientFailsForTI "BAV99" "TI", [("BAV99", "Texas Instruments"), ("BAV99", "TI")]) :=
  ⟨by decide,
   (c5_manufacturer_fallback_retry clientFailsForTI "BAV99" "Texas Instruments" "TI").1
     (by decide) (by decide) (by decide)⟩

/-- C7: the Tier-2 branch of `DataAgent.process` is exactly the spec's
ordered decision list evaluated first-match-wins, with the default rule
splitting on the stripped message length at the 20-character bound. -/
theorem c7_tier2_ordered_decision_list (a : T2Analysis) (m : String) :
    tier2Route a m = specTier2Route a m := by
  obtain ⟨pn, mfr, om, cn, hman, ps, mq, bq, enr, lq, cq, xq⟩ := a
  cases mq <;> cases lq <;> cases cq <;> cases bq <;> cases xq <;> cases enr <;>
    cases hman <;> cases ps <;>
    simp [tier2Route, specTier2Route, firstMatch, specRules] <;>
    cases hpn : truthy pn <;> simp [hpn]

theorem occursInL_append (pat u v : List Char) (h : occursInL pat v = true) :
    occursInL pat (u ++ v) = true := by
  induction u with
  | nil => simpa using h
  | cons c cs ih => simp [occursInL, ih]

theorem occursIn_append_right (pat s t : String) (h : occursIn pat t = true) :
    occursIn pat (s ++ t) = true := by
  unfold occursIn at *
  have hdata : (s ++ t).data = s.data ++ t.data := by
    cases s
    cases t
    rfl
  rw [hdata]
  exact occursInL_append _ _ _ h

/-- C6: on the Tier-2 path, cross-reference intent without an explicit
manufacturer yields the guidance string (which names the missing
manufacturer requirement) and an empty `Z2DataClient` call trace — no parts
API call. The final conjunct checks that the motivating query
"cross references for LM317" really reaches Tier-2: its Tier-1 confidence is
the boundary score 2, so the fast path does not fire. -/
theorem c6_crossref_requires_manufacturer (c : Z2Client) (a : T2Analysis) (m : String)
    (rp : Params)
    (h1 : a.is_market_query = false) (h2 : a.is_litigation_query = false)
    (h3 : a.is_company_query = false) (h4 : a.is_bom_query = false)
    (h5 : a.is_cross_reference_query = true) (h6 : a.has_manufacturer = false) :
    tier2Respond c a m rp = (.str (crossRefGuidance (pyRender a.part_number)), [])
    ∧ occursIn "manufacturer" (crossRefGuidance (pyRender a.part_number)) = true
    ∧ tier1Fires (analyze_query "cross references for LM317" ⟨some "LM317", none, none⟩) = false := by
  refine ⟨?_, ?_, by decide⟩
  · have hroute : tier2Route a m = .crossRef := by
      unfold tier2Route
      simp [h1, h2, h3, h4, h5]
    unfold tier2Respond
    rw [hroute]
    simp [h6]
  · unfold crossRefGuidance
    apply occursIn_append_right
    decide

/-- Witness for C6 with the classifier output for
"cross references for LM317". -/
theorem c6_crossref_requires_manufacturer_witness :
    tier2Respond trivialClient aCrossRefNoMfr "cross references for LM317"
      ⟨some "LM317", none, none⟩ = (.str (crossRefGuidance "LM317"), []) := by
  have h := (c6_crossref_requires_manufacturer trivialClient aCrossRefNoMfr
    "cross references for LM317" ⟨some "LM317", none, none⟩ rfl rfl rfl rfl rfl rfl).1
  simpa using h

/-- C8 (code bug): for "DigiKey stock for LM317" the distributor stock tool
wins at confidence 14 (keyword bonus dominates) — but its declared
`api_method` `get_digikey_stock` is not a method of `Z2DataClient`, so
execution raises `AttributeError` at the call site and the handler returns
the "Error executing Digikey_Stock: …" string: no validation call is made
and no `Detail`/`Table` response is ever produced. -/
theorem c8_digikey_selected_but_method_missing (c : Z2Client) :
    analyze_query "DigiKey stock for LM317" ⟨some "LM317", none, none⟩ =
      { tool := some digikeyTool, parameters := ⟨some "LM317", none, none⟩, confidence := 14 }
    ∧ execute_mcp_tool c digikeyTool ⟨some "LM317", none, none⟩ =
        (.str (execErrorMsg "Digikey_Stock" (attrErrMsg "get_digikey_stock")), [])
    ∧ "get_digikey_stock" ∉ z2ClientMethods := by
  refine ⟨by decide, ?_, by decide⟩
  unfold execute_mcp_tool
  simp [digikeyTool, truthy]

/-- C9: a litigation query whose company validates and whose fetch succeeds
with zero records produces the well-formed empty table titled
"No litigation records found for <company>" (not a bare error), via exactly
one `get_company_litigations` client call. -/
theorem c9_no_litigation_records_table (c : Z2Client) (vc : String → CompanyValidation)
    (api : Int → Except String LitData) (company : String) (cid : Int) (p : Params)
    (hc : c.get_company_litigations = get_company_litigations vc api)
    (hp : p.company = some company) (hne : company ≠ "")
    (hvc : vc company = ⟨true, some cid, none⟩) (hcid : cid ≠ 0)
    (hapi : api cid = .ok (.list [])) :
    execute_mcp_tool c litigationTool p =
      (.litTable ("No litigation records found for " ++ company) [] "company_litigations",
       ["get_company_litigations"]) := by
  unfold execute_mcp_tool
  simp only [litigationTool, hc, hp]
  have htr : truthy (some company) = true := by
    simp [truthy, bne_iff_ne, hne]
  have hfetch : get_company_litigations vc api company =
      { success := true, error := none, data := .list [], company_name := some company } := by
    unfold get_company_litigations
    rw [hvc]
    simp only
    have : (cid == 0) = false := by
      simp [hcid]
    simp [this, hapi]
  simp [htr, hfetch, format_litigation_response, litTruthy, hne]

/-- Witness for C9: "Toshiba", validated to company id 1, zero records. -/
theorem c9_no_litigation_records_table_witness :
    execute_mcp_tool clientNoLitigations litigationTool ⟨none, none, some "Toshiba"⟩ =
      (.litTable ("No litigation records found for " ++ "Toshiba") [] "company_litigations",
       ["get_company_litigations"]) :=
  c9_no_litigation_records_table clientNoLitigations vcAlwaysOne apiNoLitigations
    "Toshiba" 1 ⟨none, none, some "Toshiba"⟩ rfl rfl (by decide) rfl (by decide) rfl

/-- C10: dispatching the supply-chain-locations tool can never return
location data: with a company present the executor's call to the undefined
`Z2DataClient.get_supply_chain_locations` raises `AttributeError`, converted
by the handler into the "Error executing …" string (the client's
similarly-purposed method is named `get_company_supply_chain`); without a
company the branch returns the required-company message. In both cases the
client call trace is empty. -/
theorem c10_locations_method_missing (c : Z2Client) (p : Params) :
    execute_mcp_tool c locationsTool p =
      (.str (if truthy p.company
             then execErrorMsg "Supply_Chain_Locations" (attrErrMsg "get_supply_chain_locations")
             else "Company name is required for supply chain locations"), [])
    ∧ "get_supply_chain_locations" ∉ z2ClientMethods
    ∧ "get_company_supply_chain" ∈ z2ClientMethods := by
  refine ⟨?_, by decide, by decide⟩
  unfold execute_mcp_tool
  cases hcomp : truthy p.company <;> simp [locationsTool, hcomp]
